import Mathlib

/-!
Verification of the hourglass daily-quota library.

The development shallowly embeds the two layers of the code:

* the server-side atomic Lua script `consume.lua`, modelled as a pure
  function on the state of the single redis key it touches
  (`RState`: an optional integer value plus an optional expiry); and
* the Go host layer (`getKey`, `Get`, `Consume`, `Credit`), modelled
  over a key-value store of string cells, with transport failures and
  raw script replies supplied as explicit parameters.

The current UTC date, computed by `time.Now().UTC().Format("2006-01-02")`
in the Go code, is passed as an explicit string parameter.
-/

namespace Hourglass

/-! ## Redis single-key state, as seen by the atomic script

A key's state: `value = none` means the key is absent; `expiry = none`
means the key has no expiry set.  A live expiry is a nonnegative number
of remaining seconds (redis reports `-1` / `-2` only as sentinel codes
of the `TTL` command, never as a stored expiry). -/
structure RState where
  value : Option Int
  expiry : Option Nat
deriving DecidableEq, Repr

/-- redis `GET key` restricted to integer-valued keys. -/
def rGET (s : RState) : Option Int := s.value

/-- redis `INCR key`: creates an absent key at 1 (with no expiry),
otherwise adds 1 preserving the expiry; returns the new value. -/
def rINCR (s : RState) : RState × Int :=
  match s.value with
  | none => (⟨some 1, none⟩, 1)
  | some v => (⟨some (v + 1), s.expiry⟩, v + 1)

/-- redis `DECR key`: creates an absent key at -1 (with no expiry),
otherwise subtracts 1 preserving the expiry; returns the new value. -/
def rDECR (s : RState) : RState × Int :=
  match s.value with
  | none => (⟨some (-1), none⟩, -1)
  | some v => (⟨some (v - 1), s.expiry⟩, v - 1)

/-- redis `TTL key`: -2 when the key is absent, -1 when it has no
expiry, otherwise the remaining seconds. -/
def rTTL (s : RState) : Int :=
  match s.value with
  | none => -2
  | some _ =>
    match s.expiry with
    | none => -1
    | some t => (t : Int)

/-- redis `EXPIRE key ttl`: sets the expiry of an existing key;
a no-op on an absent key. -/
def rEXPIRE (s : RState) (ttl : Nat) : RState :=
  match s.value with
  | none => s
  | some _ => ⟨s.value, some ttl⟩

/-! ## The atomic consume script (consume.lua) -/

/-- Embedding of `consume.lua`:

```
local current = redis.call('GET', key)
if current == false then current = 0 else current = tonumber(current) end
if current >= limit then return {current, limit, 0} end
local new_value = redis.call('INCR', key)
if redis.call('TTL', key) == -1 then redis.call('EXPIRE', key, ttl) end
if new_value > limit then redis.call('DECR', key); return {limit, limit, 0} end
return {new_value, limit, 1}
```

Returns the resulting key state and the reply triple
`(current, limit, allowed-flag)`. -/
def consumeLua (s : RState) (limit : Int) (ttl : Nat) :
    RState × (Int × Int × Int) :=
  let current : Int :=
    match rGET s with
    | none => 0
    | some v => v
  if current ≥ limit then
    (s, (current, limit, 0))
  else
    let p := rINCR s
    let new_value := p.2
    let s₁ := p.1
    let s₂ := if rTTL s₁ = -1 then rEXPIRE s₁ ttl else s₁
    if new_value > limit then
      ((rDECR s₂).1, (limit, limit, 0))
    else
      (s₂, (new_value, limit, 1))

/-- Modelled from the spec's pseudocode contract for the atomic procedure:

```
current = GET(key) or 0
if current >= limit: return (current, limit, 0)
new = INCR(key)
if TTL(key) == unset: EXPIRE(key, ttl)
if new > limit: DECR(key); return (limit, limit, 0)
return (new, limit, 1)
```

where "the expiry is unset" is read directly as the key having no
expiry set (`expiry = none`), rather than through the `TTL` command's
`-1` sentinel code. -/
def consumeSpecProc (s : RState) (limit : Int) (ttl : Nat) :
    RState × (Int × Int × Int) :=
  let current : Int := (rGET s).getD 0
  if current ≥ limit then
    (s, (current, limit, 0))
  else
    let p := rINCR s
    let new := p.2
    let s₁ := p.1
    let s₂ := if s₁.expiry = none then rEXPIRE s₁ ttl else s₁
    if new > limit then
      ((rDECR s₂).1, (limit, limit, 0))
    else
      (s₂, (new, limit, 1))

/-- C1: the embedded atomic consume script implements exactly the spec's
check-and-increment procedure: it reads the counter treating absence as
0; at or above the limit it replies `(current, limit, 0)` without
mutating the key; otherwise it increments by 1, sets the expiry to `ttl`
iff the key has no expiry set, and either compensates (decrement and
`(limit, limit, 0)`) when the new value overshoots, or replies
`(newValue, limit, 1)`. -/
theorem consume_script_refines_spec (s : RState) (limit : Int) (ttl : Nat) :
    consumeLua s limit ttl = consumeSpecProc s limit ttl := by
  rcases s with ⟨v, e⟩
  cases v <;> cases e <;>
    simp only [consumeLua, consumeSpecProc, rGET, rINCR, rTTL, rEXPIRE,
      rDECR, Option.getD] <;>
    split_ifs <;> simp_all

/-! ## Script-level invariants -/

/-- The stored counter value is at most `L` (vacuous for an absent key). -/
def belowCap (L : Int) (s : RState) : Bool :=
  match s.value with
  | none => true
  | some v => v ≤ L

/-- One atomic execution of the consume script, projected to the
resulting key state. -/
def consumeStep (limit : Int) (ttl : Nat) (s : RState) : RState :=
  (consumeLua s limit ttl).1

/-- The key state after a sequence of atomic consume executions, one per
entry of `ttls` (each call recomputes its own ttl). -/
def consumeIter (limit : Int) (ttls : List Nat) (s : RState) : RState :=
  ttls.foldl (fun st t => consumeStep limit t st) s

lemma belowCap_consumeStep (L : Int) (ttl : Nat) (s : RState)
    (h : belowCap L s = true) : belowCap L (consumeStep L ttl s) = true := by
  rcases s with ⟨v, e⟩
  cases v <;> cases e <;>
    simp only [belowCap, consumeStep, consumeLua, rGET, rINCR, rTTL,
      rEXPIRE, rDECR, decide_eq_true_eq] at h ⊢ <;>
    split_ifs <;> simp_all <;> omega

lemma belowCap_consumeIter (L : Int) (ttls : List Nat) (s : RState)
    (h : belowCap L s = true) : belowCap L (consumeIter L ttls s) = true := by
  induction ttls generalizing s with
  | nil => exact h
  | cons t ts ih =>
    exact ih (consumeStep L t s) (belowCap_consumeStep L t s h)

/-- C3: no-overshoot invariant.  Starting from a key that is absent or
holds a value at most `L`, the stored value after any sequence of atomic
consume executions never exceeds `L`; moreover from value `L - 1` a
consume execution replies `(L, L, 1)` (allowed) leaving the value at
`L`, and from value `L` every consume execution replies `(L, L, 0)` and
leaves the state unchanged, so exactly one of the calls racing from
`L - 1` is allowed. -/
theorem consume_no_overshoot (L : Int) (ttl : Nat) (ttls : List Nat)
    (s s' : RState) (h : belowCap L s = true) :
    belowCap L (consumeIter L ttls s) = true ∧
    (s.value = some (L - 1) →
      (consumeLua s L ttl).2 = (L, L, 1) ∧
      (consumeLua s L ttl).1.value = some L) ∧
    (s'.value = some L →
      (consumeLua s' L ttl).2 = (L, L, 0) ∧
      (consumeLua s' L ttl).1 = s') := by
  refine ⟨belowCap_consumeIter L ttls s h, ?_, ?_⟩
  · intro hv
    rcases s with ⟨v, e⟩
    simp only at hv
    subst hv
    cases e <;>
      simp only [consumeLua, rGET, rINCR, rTTL, rEXPIRE, rDECR] <;>
      split_ifs <;> simp_all <;> omega
  · intro hv
    rcases s' with ⟨v, e⟩
    simp only at hv
    subst hv
    cases e <;>
      simp only [consumeLua, rGET, rINCR, rTTL, rEXPIRE, rDECR] <;>
      split_ifs <;> simp_all <;> omega

/-- Witness for C3 at `L = 3`, a counter at `2 = L - 1` with no expiry,
and three subsequent consume calls. -/
theorem consume_no_overshoot_witness :
    belowCap 3 (consumeIter 3 [5, 6, 7] ⟨some 2, none⟩) = true ∧
    ((⟨some 2, none⟩ : RState).value = some (3 - 1) →
      (consumeLua ⟨some 2, none⟩ 3 9).2 = (3, 3, 1) ∧
      (consumeLua ⟨some 2, none⟩ 3 9).1.value = some 3) ∧
    ((⟨some 3, some 9⟩ : RState).value = some 3 →
      (consumeLua ⟨some 3, some 9⟩ 3 9).2 = (3, 3, 0) ∧
      (consumeLua ⟨some 3, some 9⟩ 3 9).1 = ⟨some 3, some 9⟩) :=
  consume_no_overshoot 3 9 [5, 6, 7] ⟨some 2, none⟩ ⟨some 3, some 9⟩
    (by decide)

/-- C6: consume saturation.  For a counter holding `v` with `v ≥ L`, the
atomic consume script replies `(v, L, 0)` and leaves the key state
(value and expiry) unchanged. -/
theorem consume_saturation (s : RState) (v L : Int) (ttl : Nat)
    (hv : s.value = some v) (hL : L ≤ v) :
    consumeLua s L ttl = (s, (v, L, 0)) := by
  rcases s with ⟨w, e⟩
  simp only at hv
  subst hv
  simp only [consumeLua, rGET]
  split_ifs with h
  · rfl
  · omega

/-- Witness for C6 at `v = L = 3` with an expiry of 100 seconds. -/
theorem consume_saturation_witness :
    consumeLua ⟨some 3, some 100⟩ 3 42 = (⟨some 3, some 100⟩, (3, 3, 0)) :=
  consume_saturation ⟨some 3, some 100⟩ 3 3 42 rfl (by decide)

/-- C9: the compensating-decrement branch of the consume script is
unreachable.  Whenever the initial check `current < limit` passes, the
incremented value is `current + 1 ≤ limit`, so the script takes the
allowed branch: no `DECR` is executed and the reply is
`(current + 1, limit, 1)`. -/
theorem consume_compensation_unreachable (s : RState) (limit : Int)
    (ttl : Nat) (h : s.value.getD 0 < limit) :
    s.value.getD 0 + 1 ≤ limit ∧
    consumeLua s limit ttl =
      ((if rTTL (rINCR s).1 = -1 then rEXPIRE (rINCR s).1 ttl
        else (rINCR s).1),
       (s.value.getD 0 + 1, limit, 1)) := by
  refine ⟨by omega, ?_⟩
  rcases s with ⟨v, e⟩
  cases v <;> cases e <;>
    simp only [Option.getD] at h <;>
    simp only [consumeLua, rGET, rINCR, rTTL, rEXPIRE, rDECR] <;>
    split_ifs <;> simp_all <;> omega

/-- Witness for C9 at a counter holding 0 with limit 2. -/
theorem consume_compensation_unreachable_witness :
    (some 0 : Option Int).getD 0 + 1 ≤ 2 ∧
    consumeLua ⟨some 0, none⟩ 2 7 =
      ((if rTTL (rINCR ⟨some 0, none⟩).1 = -1 then
          rEXPIRE (rINCR ⟨some 0, none⟩).1 7
        else (rINCR ⟨some 0, none⟩).1),
       ((some 0 : Option Int).getD 0 + 1, 2, 1)) :=
  consume_compensation_unreachable ⟨some 0, none⟩ 2 7 (by decide)

/-! ## Key derivation (Go layer) -/

/-- `getKey` (part_000 lines 96-98):
`fmt.Sprintf("%s:%s:%s", featureName, username, date)` with `date` the
current UTC date `YYYY-MM-DD`, passed here as an explicit argument. -/
def getKey (featureName username date : String) : String :=
  featureName ++ ":" ++ username ++ ":" ++ date

/-- The key construction inlined in `Credit` (part_000 line 145):
`fmt.Sprintf("%s:%s:%s", featureName, userName, date)`. -/
def creditKeyInline (featureName userName date : String) : String :=
  featureName ++ ":" ++ userName ++ ":" ++ date

/-- C10: the key string built inline by Credit equals the key produced
by `getKey` for every feature, user and fixed current UTC date, so Get,
Consume and Credit all address the same counter for the same
(feature, user, day). -/
theorem credit_key_eq_getKey (featureName userName date : String) :
    creditKeyInline featureName userName date
      = getKey featureName userName date := rfl

/-- C4 counterexample: key derivation is not injective across all
triples.  The distinct triples `("a:b", "c", d)` and `("a", "b:c", d)`
derive the same key, because feature and user names may themselves
contain the `:` delimiter. -/
theorem getKey_collision :
    getKey "a:b" "c" "2024-01-01" = getKey "a" "b:c" "2024-01-01" ∧
    (("a:b", "c", "2024-01-01") : String × String × String)
      ≠ ("a", "b:c", "2024-01-01") := by
  constructor
  · rfl
  · decide

lemma append_cons_sep_inj (c : Char) (a₁ : List Char) :
    ∀ (a₂ b₁ b₂ : List Char), c ∉ a₁ → c ∉ a₂ →
      a₁ ++ c :: b₁ = a₂ ++ c :: b₂ → a₁ = a₂ ∧ b₁ = b₂ := by
  induction a₁ with
  | nil =>
    intro a₂ b₁ b₂ h₁ h₂ heq
    cases a₂ with
    | nil => simp_all
    | cons x xs => simp_all
  | cons y ys ih =>
    intro a₂ b₁ b₂ h₁ h₂ heq
    cases a₂ with
    | nil => simp_all
    | cons x xs =>
      simp only [List.cons_append, List.cons.injEq] at heq
      obtain ⟨rfl, heq₂⟩ := heq
      have h₁ys : c ∉ ys := fun hc => h₁ (List.mem_cons_of_mem _ hc)
      have h₂xs : c ∉ xs := fun hc => h₂ (List.mem_cons_of_mem _ hc)
      obtain ⟨rfl, rfl⟩ := ih xs b₁ b₂ h₁ys h₂xs heq₂
      exact ⟨rfl, rfl⟩

/-- C4 amended: key derivation is injective on triples whose feature
and user components do not contain the `:` delimiter character (the
date component produced by the `YYYY-MM-DD` formatter never does, and
may even be arbitrary here): distinct such triples derive distinct
keys. -/
theorem getKey_injective_colon_free (f₁ u₁ d₁ f₂ u₂ d₂ : String)
    (hf₁ : ':' ∉ f₁.data) (hu₁ : ':' ∉ u₁.data)
    (hf₂ : ':' ∉ f₂.data) (hu₂ : ':' ∉ u₂.data)
    (hne : (f₁, u₁, d₁) ≠ (f₂, u₂, d₂)) :
    getKey f₁ u₁ d₁ ≠ getKey f₂ u₂ d₂ := by
  intro heq
  apply hne
  have hdata : f₁.data ++ ':' :: (u₁.data ++ ':' :: d₁.data)
      = f₂.data ++ ':' :: (u₂.data ++ ':' :: d₂.data) := by
    have h := congrArg String.data heq
    simpa [getKey, String.data_append] using h
  obtain ⟨hf, hrest⟩ :=
    append_cons_sep_inj ':' f₁.data f₂.data _ _ hf₁ hf₂ hdata
  obtain ⟨hu, hd⟩ :=
    append_cons_sep_inj ':' u₁.data u₂.data _ _ hu₁ hu₂ hrest
  cases String.ext hf
  cases String.ext hu
  cases String.ext hd
  rfl

/-- Witness for the amended C4: same feature and user on two different
dates give different keys. -/
theorem getKey_injective_colon_free_witness :
    getKey "a" "b" "2024-01-01" ≠ getKey "a" "b" "2024-01-02" :=
  getKey_injective_colon_free "a" "b" "2024-01-01" "a" "b" "2024-01-02"
    (by decide) (by decide) (by decide) (by decide) (by decide)

/-! ## Go layer: store cells, transport, parsing -/

/-- One key's cell in the store as the Go layer sees it: a raw string
value (`none` = absent key) and an optional expiry in seconds. -/
structure Cell where
  value : Option String
  expiry : Option Nat
deriving DecidableEq

abbrev Store := String → Cell

/-- Point update of a store. -/
def updateStore (store : Store) (key : String) (c : Cell) : Store :=
  fun k => if k = key then c else store k

/-- Whether the network round trip of one redis command succeeds. -/
inductive Transport where
  | ok
  | failed
deriving DecidableEq

/-- Digit accumulator of `strconv.Atoi`: consumes decimal digits,
failing on any non-digit character. -/
def parseDigitsAux : List Char → Nat → Option Nat
  | [], acc => some acc
  | ch :: cs, acc =>
    if ch.isDigit then parseDigitsAux cs (acc * 10 + (ch.toNat - 48))
    else none

/-- Integer parsing as performed by `strconv.Atoi` on a 64-bit platform
(used by go-redis `cmd.Int()`) and by redis itself for `DECR`: an
optional sign followed by at least one decimal digit and nothing else,
and the result must fit in a signed 64-bit integer — a syntactically
valid number outside `[-2^63, 2^63 - 1]` fails with `ErrRange` and is
classified as a parse failure. -/
def atoi? (s : String) : Option Int :=
  match s.data with
  | [] => none
  | ch :: cs =>
    if ch = '-' then
      match cs with
      | [] => none
      | _ =>
        (parseDigitsAux cs 0).bind (fun n =>
          if n ≤ 9223372036854775808 then some (-(n : Int)) else none)
    else if ch = '+' then
      match cs with
      | [] => none
      | _ =>
        (parseDigitsAux cs 0).bind (fun n =>
          if n ≤ 9223372036854775807 then some ((n : Int)) else none)
    else
      (parseDigitsAux (ch :: cs) 0).bind (fun n =>
        if n ≤ 9223372036854775807 then some ((n : Int)) else none)

/-- The observable result of `redisClient.Get(ctx, key)` followed by
`cmd.Err()`: an absent key surfaces as the `redis.Nil` error, so
transport failure and absence land in one error branch of the Go code
(`none` here). -/
def redisGet (store : Store) (tr : Transport) (key : String) :
    Option String :=
  match tr with
  | .failed => none
  | .ok => (store key).value

/-- `HourGlass.Get` (part_000 lines 100-118): unregistered check, one
`GET` round trip, `cmd.Int()` parse, sentinel `-1` on every failure.
The store is returned unchanged: `Get` issues only a read. -/
def Get (limits : String → Option Int) (store : Store) (tr : Transport)
    (featureName userName date : String) : (Int × Int) × Store :=
  match limits featureName with
  | none => ((-1, -1), store)
  | some limit =>
    match redisGet store tr (getKey featureName userName date) with
    | none => ((-1, limit), store)
    | some raw =>
      match atoi? raw with
      | none => ((-1, limit), store)
      | some v => ((v, limit), store)

/-- redis `DECR` at the Go level: creates an absent key at `-1` with no
expiry; decrements a parseable integer value in place preserving the
expiry; errors without mutating on a non-integer value. -/
def rdDecr (store : Store) (key : String) : Option (Int × Store) :=
  match (store key).value with
  | none =>
    some (-1, updateStore store key ⟨some (toString (-1 : Int)), none⟩)
  | some raw =>
    match atoi? raw with
    | none => none
    | some v =>
      some (v - 1,
        updateStore store key
          ⟨some (toString (v - 1)), (store key).expiry⟩)

/-- `HourGlass.Credit` (part_000 lines 144-158): inline key derivation,
unregistered check, one atomic `DECR`, error sentinel on failure. -/
def Credit (limits : String → Option Int) (store : Store) (tr : Transport)
    (featureName userName date : String) : (Int × Int) × Store :=
  let key := creditKeyInline featureName userName date
  match limits featureName with
  | none => ((-1, -1), store)
  | some limit =>
    match tr with
    | .failed => ((-1, limit), store)
    | .ok =>
      match rdDecr store key with
      | none => ((-1, limit), store)
      | some (v, store') => ((v, limit), store')

/-! ## Go layer: Consume and its reply interpretation -/

/-- A raw redis reply value as surfaced by go-redis through
`result.Val() : interface{}`: integers arrive as `int64`, bulk strings
as `string`, arrays as `[]interface{}`, null replies as `nil`. -/
inductive RVal where
  | int (i : Int)
  | str (s : String)
  | arr (xs : List RVal)
  | nil

/-- A Go runtime panic raised while interpreting the reply. -/
inductive GoPanic where
  | typeAssertion
  | indexOutOfRange
deriving DecidableEq

/-- Go `v.(int64)`: an unchecked type assertion, panicking unless the
dynamic type is `int64`. -/
def asInt64 : RVal → Except GoPanic Int
  | .int i => .ok i
  | _ => .error .typeAssertion

/-- Go `xs[i]`: panics when `i` is out of range. -/
def indexAt (xs : List RVal) (i : Nat) : Except GoPanic RVal :=
  match xs.get? i with
  | some v => .ok v
  | none => .error .indexOutOfRange

/-- The reply interpretation in `HourGlass.Consume` (part_000 lines
136-139):

```
resultArray := result.Val().([]interface{})
current = int(resultArray[0].(int64))
limit = int(resultArray[1].(int64))
can = resultArray[2].(int64) == 1
```

Every type assertion and index access is unchecked, so a reply of
unexpected shape raises a runtime panic. -/
def interpretScriptReply (v : RVal) : Except GoPanic (Int × Int × Bool) :=
  match v with
  | .arr xs => do
    let a ← indexAt xs 0
    let current ← asInt64 a
    let b ← indexAt xs 1
    let lim ← asInt64 b
    let cfl ← indexAt xs 2
    let can ← asInt64 cfl
    pure (current, lim, can == 1)
  | _ => .error .typeAssertion

/-- The outcome of the script round trip: `err` covers transport and
store failure (`result.Err() != nil`); `val` carries the raw reply
otherwise. -/
inductive ScriptReply where
  | err
  | val (v : RVal)

/-- `HourGlass.Consume` at the Go level (part_000 lines 120-142):
key derivation, unregistered bypass, fail-open on a failed call, then
the unchecked reply interpretation.  The `Except GoPanic` result
surfaces the possible runtime panic. -/
def Consume (limits : String → Option Int) (reply : ScriptReply)
    (featureName userName date : String) :
    Except GoPanic (Int × Int × Bool) :=
  let _key := getKey featureName userName date
  match limits featureName with
  | none => .ok (-1, -1, true)
  | some limit =>
    match reply with
    | .err => .ok (-1, limit, true)
    | .val v => interpretScriptReply v

/-- C2 (code bug evaluation): for the registered feature `feature1`
with limit 5, a call whose reply is the bulk string `x` instead of a
3-integer array makes `Consume` panic on the unchecked
`.([]interface{})` type assertion instead of failing open with
`(-1, 5, true)`. -/
theorem consume_malformed_reply_panics :
    Consume (fun _ => some 5) (.val (.str "x")) "feature1" "alice"
        "2024-05-01"
      = .error .typeAssertion ∧
    Consume (fun _ => some 5) (.val (.str "x")) "feature1" "alice"
        "2024-05-01"
      ≠ .ok (-1, 5, true) := by
  refine ⟨rfl, ?_⟩
  simp [Consume, interpretScriptReply]

/-- C5: unregistered feature bypass.  For every feature absent from the
limits mapping, and regardless of the store contents, the transport
outcome and the script reply: Get returns `(-1, -1)`, Consume returns
`(-1, -1, true)` without panicking, Credit returns `(-1, -1)`, and
neither touches the store. -/
theorem unregistered_bypass (limits : String → Option Int) (store : Store)
    (tr : Transport) (reply : ScriptReply)
    (featureName userName date : String)
    (h : limits featureName = none) :
    Get limits store tr featureName userName date = ((-1, -1), store) ∧
    Consume limits reply featureName userName date = .ok (-1, -1, true) ∧
    Credit limits store tr featureName userName date = ((-1, -1), store) := by
  refine ⟨?_, ?_, ?_⟩ <;> simp [Get, Consume, Credit, h]

/-- Witness for C5 with an empty FeatureLimit mapping and a populated
store. -/
theorem unregistered_bypass_witness :
    Get (fun _ => none) (fun _ => ⟨some "7", some 3⟩) .ok "f" "u"
        "2024-05-01"
      = ((-1, -1), fun _ => ⟨some "7", some 3⟩) ∧
    Consume (fun _ => none) (.val (.int 0)) "f" "u" "2024-05-01"
      = .ok (-1, -1, true) ∧
    Credit (fun _ => none) (fun _ => ⟨some "7", some 3⟩) .ok "f" "u"
        "2024-05-01"
      = ((-1, -1), fun _ => ⟨some "7", some 3⟩) :=
  unregistered_bypass (fun _ => none) (fun _ => ⟨some "7", some 3⟩) .ok
    (.val (.int 0)) "f" "u" "2024-05-01" rfl

/-- C7: Peek error sentinel.  For a registered feature with limit `L`:
a failed read returns `(-1, L)`; an absent key returns `(-1, L)`; an
unparseable stored value returns `(-1, L)`; a parseable value `v`
returns `(v, L)`; in every case the store is unmodified. -/
theorem peek_sentinel (limits : String → Option Int) (store : Store)
    (featureName userName date : String) (L : Int) (raw : String) (v : Int)
    (h : limits featureName = some L) :
    Get limits store .failed featureName userName date
      = ((-1, L), store) ∧
    ((store (getKey featureName userName date)).value = none →
      Get limits store .ok featureName userName date = ((-1, L), store)) ∧
    ((store (getKey featureName userName date)).value = some raw →
      atoi? raw = none →
      Get limits store .ok featureName userName date = ((-1, L), store)) ∧
    ((store (getKey featureName userName date)).value = some raw →
      atoi? raw = some v →
      Get limits store .ok featureName userName date = ((v, L), store)) := by
  refine ⟨?_, ?_, ?_, ?_⟩
  · simp [Get, redisGet, h]
  · intro h₁; simp [Get, redisGet, h, h₁]
  · intro h₁ h₂; simp [Get, redisGet, h, h₁, h₂]
  · intro h₁ h₂; simp [Get, redisGet, h, h₁, h₂]

/-- Witness for C7: limit 5 everywhere, every key holding the raw
value `2`. -/
theorem peek_sentinel_witness :
    Get (fun _ => some 5) (fun _ => ⟨some "2", some 50⟩) .failed "f" "u"
        "2024-05-01"
      = ((-1, 5), fun _ => ⟨some "2", some 50⟩) ∧
    (((fun _ => ⟨some "2", some 50⟩ : Store)
        (getKey "f" "u" "2024-05-01")).value = none →
      Get (fun _ => some 5) (fun _ => ⟨some "2", some 50⟩) .ok "f" "u"
          "2024-05-01"
        = ((-1, 5), fun _ => ⟨some "2", some 50⟩)) ∧
    (((fun _ => ⟨some "2", some 50⟩ : Store)
        (getKey "f" "u" "2024-05-01")).value = some "2" →
      atoi? "2" = none →
      Get (fun _ => some 5) (fun _ => ⟨some "2", some 50⟩) .ok "f" "u"
          "2024-05-01"
        = ((-1, 5), fun _ => ⟨some "2", some 50⟩)) ∧
    (((fun _ => ⟨some "2", some 50⟩ : Store)
        (getKey "f" "u" "2024-05-01")).value = some "2" →
      atoi? "2" = some 2 →
      Get (fun _ => some 5) (fun _ => ⟨some "2", some 50⟩) .ok "f" "u"
          "2024-05-01"
        = ((2, 5), fun _ => ⟨some "2", some 50⟩)) :=
  peek_sentinel (fun _ => some 5) (fun _ => ⟨some "2", some 50⟩) "f" "u"
    "2024-05-01" 5 "2" 2 rfl

/-- C8: Credit decrements.  For a registered feature with limit `L` and
a successful round trip: if today's counter holds an integer `v`, Credit
returns `(v - 1, L)` and stores `v - 1` at the key, preserving its
expiry; if the counter does not exist, the raw decrement creates it at
`-1` with no expiry and Credit returns `(-1, L)`. -/
theorem credit_decrements (limits : String → Option Int) (store : Store)
    (featureName userName date : String) (L : Int) (raw : String) (v : Int)
    (h : limits featureName = some L) :
    ((store (creditKeyInline featureName userName date)).value = some raw →
      atoi? raw = some v →
      Credit limits store .ok featureName userName date
        = ((v - 1, L),
           updateStore store (creditKeyInline featureName userName date)
             ⟨some (toString (v - 1)),
              (store (creditKeyInline featureName userName date)).expiry⟩)) ∧
    ((store (creditKeyInline featureName userName date)).value = none →
      Credit limits store .ok featureName userName date
        = ((-1, L),
           updateStore store (creditKeyInline featureName userName date)
             ⟨some (toString (-1 : Int)), none⟩)) := by
  constructor
  · intro h₁ h₂
    simp [Credit, rdDecr, h, h₁, h₂]
  · intro h₁
    simp [Credit, rdDecr, h, h₁]

/-- Witness for C8: limit 5 everywhere, every key holding the raw
value `3`. -/
theorem credit_decrements_witness :
    (((fun _ => ⟨some "3", some 100⟩ : Store)
        (creditKeyInline "f" "u" "2024-05-01")).value = some "3" →
      atoi? "3" = some 3 →
      Credit (fun _ => some 5) (fun _ => ⟨some "3", some 100⟩) .ok "f" "u"
          "2024-05-01"
        = ((3 - 1, 5),
           updateStore (fun _ => ⟨some "3", some 100⟩)
             (creditKeyInline "f" "u" "2024-05-01")
             ⟨some (toString ((3 : Int) - 1)),
              ((fun _ => ⟨some "3", some 100⟩ : Store)
                 (creditKeyInline "f" "u" "2024-05-01")).expiry⟩)) ∧
    (((fun _ => ⟨some "3", some 100⟩ : Store)
        (creditKeyInline "f" "u" "2024-05-01")).value = none →
      Credit (fun _ => some 5) (fun _ => ⟨some "3", some 100⟩) .ok "f" "u"
          "2024-05-01"
        = ((-1, 5),
           updateStore (fun _ => ⟨some "3", some 100⟩)
             (creditKeyInline "f" "u" "2024-05-01")
             ⟨some (toString (-1 : Int)), none⟩)) :=
  credit_decrements (fun _ => some 5) (fun _ => ⟨some "3", some 100⟩) "f"
    "u" "2024-05-01" 5 "3" 3 rfl

end Hourglass
